import Mathlib

/-!
Shallow embedding of the precor-9.3x treadmill intercept daemon, covering the
wire codec (src/src/kv_protocol.cpp), the mode state machine
(src/src/mode_state.cpp / mode_state.h), the event ring buffer
(src/src/ring_buffer.h), the IPC fan-out flush (src/src/ipc_server.cpp) and
the gpio.json loaders (src/src/treadmill_io.cpp and src/src/config.h).

Bytes are modelled as natural numbers (the C code reads them as uint8_t),
byte strings as lists of naturals, and C int values as Lean Int where signs
matter.  Each definition mirrors one source function; the comment above it
names that function.
-/

namespace Precor

/-! ## Wire codec: src/src/kv_protocol.cpp -/

/-- KV_FIELD_SIZE from src/src/kv_protocol.h. -/
def KV_FIELD_SIZE : Nat := 64

/-- Printable-ASCII test used by kv_parse: the C code rejects a byte `b` with
`b < 0x20 || b > 0x7E`. -/
def isPrintable (c : Nat) : Bool := 32 ≤ c && c ≤ 126

/-- Index of the first occurrence of byte `b` in a byte list, mirroring the
forward scans in kv_parse (the search for the closing bracket, and
string_view.find of the colon). -/
def findByte (b : Nat) : List Nat → Option Nat
  | [] => none
  | c :: cs => if c = b then some 0 else (findByte b cs).map (fun k => k + 1)

/-- A parsed pair: key bytes and value bytes.  In C the pair is a pair of
NUL-terminated 64-byte arrays; since kv_parse only stores printable (hence
non-NUL) bytes, the observable content of each array is exactly the list of
bytes copied into it. -/
abbrev KvPairL := List Nat × List Nat

/-- Loop body of kv_parse (src/src/kv_protocol.cpp, lines 12-69).  `i` is the
scan position, `acc` the pairs emitted so far (its length is the C counter
`n`).  The C loop terminates because `i` strictly increases; here the fuel
argument starts at `buf.length + 1`, which bounds the number of iterations.
Returns the pairs together with the `consumed` count. -/
def kvParseGo (buf : List Nat) (maxPairs : Nat) :
    Nat → Nat → List KvPairL → List KvPairL × Nat
  | 0, i, acc => (acc, i)
  | fuel + 1, i, acc =>
    if i < buf.length ∧ acc.length < maxPairs then
      let b := buf.getD i 0
      if b = 255 ∨ b = 0 then
        kvParseGo buf maxPairs fuel (i + 1) acc
      else if b = 91 then
        match findByte 93 (buf.drop (i + 1)) with
        | none => (acc, i)
        | some rel =>
          let e := i + 1 + rel
          let rawLen := e - i - 1
          let content := (buf.drop (i + 1)).take rawLen
          let acc2 :=
            if content.all isPrintable ∧ 0 < rawLen ∧ rawLen < KV_FIELD_SIZE then
              match findByte 58 content with
              | some cp =>
                let keyPart := content.take cp
                let valPart := content.drop (cp + 1)
                if keyPart.length < KV_FIELD_SIZE ∧ valPart.length < KV_FIELD_SIZE then
                  acc ++ [(keyPart, valPart)]
                else acc
              | none =>
                if content.length < KV_FIELD_SIZE then acc ++ [(content, [])] else acc
            else acc
          kvParseGo buf maxPairs fuel (e + 1) acc2
      else
        kvParseGo buf maxPairs fuel (i + 1) acc
    else (acc, i)

/-- kv_parse (src/src/kv_protocol.cpp, lines 8-73): returns the list of parsed
pairs and the number of consumed bytes. -/
def kv_parse (buf : List Nat) (maxPairs : Nat) : List KvPairL × Nat :=
  kvParseGo buf maxPairs (buf.length + 1) 0 []

/-- kv_build (src/src/kv_protocol.cpp, lines 75-87): `[key:value]` (or `[key]`
when the value is empty) followed by the 0xFF terminator. -/
def kv_build (key value : List Nat) : List Nat :=
  91 :: (key ++ (if value = [] then [] else 58 :: value) ++ [93, 255])

/-- Uppercase hex digit byte, as produced by std::to_chars base 16 followed by
the manual lowercase-to-uppercase pass. -/
def hexDigitByte (d : Nat) : Nat := if d < 10 then 48 + d else 55 + d

/-- Hex digit emission of std::to_chars: most significant first, no leading
zeros.  Fuel-based recursion; fuel `n` suffices for value `n`. -/
def toHexAux : Nat → Nat → List Nat
  | 0, _ => []
  | fuel + 1, n => if n = 0 then [] else toHexAux fuel (n / 16) ++ [hexDigitByte (n % 16)]

/-- encode_speed_hex (src/src/kv_protocol.cpp, lines 89-101): hundredths of
mph in uppercase hex.  The daemon always calls it with a non-negative speed
(the mode authority clamps to [0, 120]), so the domain is Nat. -/
def encode_speed_hex (tenths : Nat) : List Nat :=
  let hundredths := tenths * 10
  if hundredths = 0 then [48] else toHexAux hundredths hundredths

/-- Hex digit acceptance of std::from_chars base 16 (digits, and both letter
cases). -/
def isHexDigit (c : Nat) : Bool :=
  (48 ≤ c && c ≤ 57) || (97 ≤ c && c ≤ 102) || (65 ≤ c && c ≤ 70)

/-- Numeric value of an accepted hex digit byte. -/
def hexVal (c : Nat) : Nat :=
  if c ≤ 57 then c - 48 else if c ≤ 70 then c - 55 else c - 87

/-- decode_speed_hex (src/src/kv_protocol.cpp, lines 103-112): −1 on empty
input, on input longer than 10 bytes, or when from_chars does not consume the
whole view (i.e. some byte is not a hex digit); otherwise round hundredths to
tenths.  A 10-hex-digit value cannot overflow the C unsigned long. -/
def decode_speed_hex (hex : List Nat) : Int :=
  if hex.length = 0 || 10 < hex.length then -1
  else if hex.all isHexDigit then
    ((hex.foldl (fun a c => a * 16 + hexVal c) 0 + 5) / 10 : Nat)
  else -1

/-! ## Mode authority: src/src/mode_state.cpp and mode_state.h -/

/-- MAX_SPEED_TENTHS from src/src/mode_state.h. -/
def MAX_SPEED_TENTHS : Int := 120

/-- MAX_INCLINE from src/src/mode_state.h. -/
def MAX_INCLINE : Int := 99

/-- Mode enum from src/src/mode_state.h. -/
inductive Mode where
  | Idle
  | Proxy
  | Emulating
deriving Repr, DecidableEq

/-- The atomic snapshot structure AtomicSnap (src/src/mode_state.h): the
values data-plane readers observe between mutex-protected updates. -/
structure Snap where
  proxy_enabled : Bool
  emulate_enabled : Bool
  speed_tenths : Int
  speed_raw : Int
  incline : Int
deriving Repr, DecidableEq

/-- Mutex-protected fields of ModeStateMachine plus its atomic snap. -/
structure ModeSM where
  mode : Mode
  speed_tenths : Int
  speed_raw : Int
  incline : Int
  snap : Snap
deriving Repr, DecidableEq

/-- Initial state: member initializers in src/src/mode_state.h (mode_ = Proxy,
zero set-points, snap proxy_enabled = true). -/
def msmInit : ModeSM :=
  { mode := Mode.Proxy, speed_tenths := 0, speed_raw := 0, incline := 0,
    snap := { proxy_enabled := true, emulate_enabled := false,
              speed_tenths := 0, speed_raw := 0, incline := 0 } }

/-- TransitionResult from src/src/mode_state.h. -/
structure TransitionResult where
  changed : Bool
  emulate_started : Bool
  emulate_stopped : Bool
deriving Repr, DecidableEq

/-- The zero-initialized TransitionResult result{}. -/
def trNone : TransitionResult :=
  { changed := false, emulate_started := false, emulate_stopped := false }

/-- Outcome of one mode-authority operation: the state after it, the returned
TransitionResult, the arguments of the emulate-callback invocations it makes
(in order), and the successive values written to the atomic snap by
update_snap_locked (in order) — each such write is observable by lock-free
readers the moment it happens. -/
structure OpOut where
  st : ModeSM
  res : TransitionResult
  cbs : List Bool
  snaps : List Snap
deriving Repr, DecidableEq

/-- update_snap_locked (src/src/mode_state.cpp, lines 15-21). -/
def update_snap (st : ModeSM) : ModeSM :=
  { st with snap := { proxy_enabled := st.mode == Mode.Proxy,
                      emulate_enabled := st.mode == Mode.Emulating,
                      speed_tenths := st.speed_tenths,
                      speed_raw := st.speed_raw,
                      incline := st.incline } }

/-- enter_emulate_locked (src/src/mode_state.cpp, lines 23-30): zero the
set-points, set mode Emulating, publish the snap. -/
def enter_emulate (st : ModeSM) : ModeSM :=
  update_snap { st with speed_tenths := 0, speed_raw := 0, incline := 0,
                        mode := Mode.Emulating }

/-- exit_emulate_locked (src/src/mode_state.cpp, lines 32-35). -/
def exit_emulate (st : ModeSM) : ModeSM :=
  update_snap { st with mode := Mode.Idle }

/-- The no-op outcome: state untouched, zero result, no callback, no snap
write. -/
def noopOut (st : ModeSM) : OpOut :=
  { st := st, res := trNone, cbs := [], snaps := [] }

/-- request_proxy (src/src/mode_state.cpp, lines 37-65). -/
def request_proxy (enabled : Bool) (st : ModeSM) : OpOut :=
  if enabled then
    if st.mode == Mode.Emulating then
      let st1 := exit_emulate st
      let st2 := update_snap { st1 with mode := Mode.Proxy }
      { st := st2,
        res := { changed := true, emulate_started := false, emulate_stopped := true },
        cbs := [false], snaps := [st1.snap, st2.snap] }
    else
      let st2 := update_snap { st with mode := Mode.Proxy }
      { st := st2,
        res := { changed := true, emulate_started := false, emulate_stopped := false },
        cbs := [], snaps := [st2.snap] }
  else
    if st.mode == Mode.Proxy then
      let st2 := update_snap { st with mode := Mode.Idle }
      { st := st2,
        res := { changed := true, emulate_started := false, emulate_stopped := false },
        cbs := [], snaps := [st2.snap] }
    else noopOut st

/-- request_emulate (src/src/mode_state.cpp, lines 67-95). -/
def request_emulate (enabled : Bool) (st : ModeSM) : OpOut :=
  if enabled then
    if st.mode == Mode.Emulating then noopOut st
    else
      let st2 := enter_emulate { st with mode := Mode.Idle }
      { st := st2,
        res := { changed := true, emulate_started := true, emulate_stopped := false },
        cbs := [true], snaps := [st2.snap] }
  else
    if st.mode == Mode.Emulating then
      let st2 := exit_emulate st
      { st := st2,
        res := { changed := true, emulate_started := false, emulate_stopped := true },
        cbs := [false], snaps := [st2.snap] }
    else noopOut st

/-- set_speed (src/src/mode_state.cpp, lines 97-121): clamp, auto-enter
emulate when not already emulating, store tenths and raw = tenths * 10. -/
def set_speed (tenths : Int) (st : ModeSM) : OpOut :=
  let t := max 0 (min tenths MAX_SPEED_TENTHS)
  if st.mode == Mode.Emulating then
    let st2 := update_snap { st with speed_tenths := t, speed_raw := t * 10 }
    { st := st2, res := trNone, cbs := [], snaps := [st2.snap] }
  else
    let stE := enter_emulate { st with mode := Mode.Idle }
    let st2 := update_snap { stE with speed_tenths := t, speed_raw := t * 10 }
    { st := st2,
      res := { changed := true, emulate_started := true, emulate_stopped := false },
      cbs := [true], snaps := [stE.snap, st2.snap] }

/-- set_incline (src/src/mode_state.cpp, lines 128-151). -/
def set_incline (v : Int) (st : ModeSM) : OpOut :=
  let w := max 0 (min v MAX_INCLINE)
  if st.mode == Mode.Emulating then
    let st2 := update_snap { st with incline := w }
    { st := st2, res := trNone, cbs := [], snaps := [st2.snap] }
  else
    let stE := enter_emulate { st with mode := Mode.Idle }
    let st2 := update_snap { stE with incline := w }
    { st := st2,
      res := { changed := true, emulate_started := true, emulate_stopped := false },
      cbs := [true], snaps := [stE.snap, st2.snap] }

/-- auto_proxy_on_console_change (src/src/mode_state.cpp, lines 153-183).
The C argument strings are NUL-terminated; `old_val[0]` being NUL is the
empty string. -/
def auto_proxy_on_console_change (key old_val new_val : String) (st : ModeSM) : OpOut :=
  if old_val == "" || old_val == new_val then noopOut st
  else if !(key == "hmph") && !(key == "inc") then noopOut st
  else if st.mode == Mode.Emulating then
    let st1 := exit_emulate st
    let st2 := update_snap { st1 with mode := Mode.Proxy }
    { st := st2,
      res := { changed := true, emulate_started := false, emulate_stopped := true },
      cbs := [false], snaps := [st1.snap, st2.snap] }
  else noopOut st

/-- safety_timeout_reset (src/src/mode_state.cpp, lines 185-191): zero the
set-points, leave the mode alone.  The C function returns void. -/
def safety_timeout_reset (st : ModeSM) : OpOut :=
  let st2 := update_snap { st with speed_tenths := 0, speed_raw := 0, incline := 0 }
  { st := st2, res := trNone, cbs := [], snaps := [st2.snap] }

/-- Modelled from the spec: ModeStateMachine::watchdog_reset_to_proxy is
declared in src/src/mode_state.h (lines 76-80) and called from
src/src/treadmill_io.h, but its definition is not among the sources.  Per the
spec: "Zero set-points AND set mode to Proxy, but do not fire the emulate
callback", and "it zeros set-points and moves mode to Proxy, but does NOT
fire the emulate-stop callback". -/
def watchdog_reset_to_proxy (st : ModeSM) : OpOut :=
  let st2 := update_snap { st with speed_tenths := 0, speed_raw := 0, incline := 0,
                                   mode := Mode.Proxy }
  { st := st2, res := trNone, cbs := [], snaps := [st2.snap] }

/-- StateSnapshot returned by ModeStateMachine::snapshot
(src/src/mode_state.cpp, lines 201-212); mode is derived from the two flags. -/
structure StateSnapshot where
  mode : Mode
  speed_tenths : Int
  speed_raw : Int
  incline : Int
  proxy_enabled : Bool
  emulate_enabled : Bool
deriving Repr, DecidableEq

/-- snapshot (src/src/mode_state.cpp, lines 201-212). -/
def snapshot (st : ModeSM) : StateSnapshot :=
  { mode := if st.snap.emulate_enabled then Mode.Emulating
            else if st.snap.proxy_enabled then Mode.Proxy
            else Mode.Idle,
    speed_tenths := st.snap.speed_tenths,
    speed_raw := st.snap.speed_raw,
    incline := st.snap.incline,
    proxy_enabled := st.snap.proxy_enabled,
    emulate_enabled := st.snap.emulate_enabled }

/-- One control-plane operation on the mode authority. -/
inductive MOp where
  | reqProxy (enabled : Bool)
  | reqEmulate (enabled : Bool)
  | setSpeed (tenths : Int)
  | setIncline (v : Int)
  | autoProxy (key old_val new_val : String)
  | safetyReset
  | watchdogReset
deriving Repr

/-- Dispatch one operation. -/
def applyOp : MOp → ModeSM → OpOut
  | MOp.reqProxy b, st => request_proxy b st
  | MOp.reqEmulate b, st => request_emulate b st
  | MOp.setSpeed t, st => set_speed t st
  | MOp.setIncline v, st => set_incline v st
  | MOp.autoProxy k o n, st => auto_proxy_on_console_change k o n st
  | MOp.safetyReset, st => safety_timeout_reset st
  | MOp.watchdogReset, st => watchdog_reset_to_proxy st

/-- Run a sequence of operations from a state; collect every snap value the
atomic snapshot takes along the way. -/
def runOps : ModeSM → List MOp → ModeSM × List Snap
  | st, [] => (st, [])
  | st, op :: rest =>
    let o := applyOp op st
    let r := runOps o.st rest
    (r.1, o.snaps ++ r.2)

/-! ## Ring buffer: src/src/ring_buffer.h (Size = 2048, MsgSize = 256, the
defaults used by IpcServer via RingBuffer<>) -/

/-- Ring capacity (template default Size). -/
def RB_SIZE : Nat := 2048

/-- Slot size in bytes (template default MsgSize). -/
def RB_MSG_SIZE : Nat := 256

/-- RingBuffer state: `msgs i j` is byte `j` of slot `i`, mirroring the
std::array<std::array<char, MsgSize>, Size> (zero-initialized). -/
structure RingBuf where
  msgs : Nat → Nat → Nat
  head : Nat
  count : Nat

/-- RingBuffer::push (src/src/ring_buffer.h, lines 23-31): copy
min(msg.size, MsgSize − 1) bytes into the head slot, NUL-terminate, advance
head mod Size, increment count. -/
def RingBuf.push (rb : RingBuf) (msg : List Nat) : RingBuf :=
  let copy_len := min msg.length (RB_MSG_SIZE - 1)
  let written := fun j =>
    if j < copy_len then msg.getD j 0
    else if j = copy_len then 0
    else rb.msgs rb.head j
  { msgs := fun i => if i = rb.head then written else rb.msgs i,
    head := (rb.head + 1) % RB_SIZE,
    count := rb.count + 1 }

/-! ## IPC fan-out flush: IpcServer::flush_ring_to_clients
(src/src/ipc_server.cpp, lines 146-186), per-client step.

The non-blocking write(2) outcomes are abstracted by an oracle `w` giving the
outcome of the n-th write call performed for this client during the cycle:
success (w > 0), EAGAIN/EWOULDBLOCK, or another error (w <= 0). -/

/-- Outcome of one non-blocking write call. -/
inductive WOut where
  | ok
  | eagain
  | err
deriving Repr, DecidableEq

/-- Result of flushing one client: its ring_cursor afterwards, whether it was
marked failed and removed, and how many write calls were made. -/
structure FlushOut where
  cursor : Nat
  removed : Bool
  writes : Nat
deriving Repr, DecidableEq

/-- The inner message loop of flush_ring_to_clients (lines 165-176): `k`
counts the remaining pending messages, `i` the loop index, `wc` the write
calls made so far.  Empty slots are skipped without a write call; EAGAIN
breaks with failed = false; any other failure sets failed = true (the C loop
condition `!failed` then exits).  Returns (failed, total write calls). -/
def flushLoop (ringAt : Nat → List Nat) (start : Nat) (w : Nat → WOut) :
    Nat → Nat → Nat → Bool × Nat
  | 0, _, wc => (false, wc)
  | k + 1, i, wc =>
    let ri := (start + i) % RB_SIZE
    if ringAt ri = [] then flushLoop ringAt start w k (i + 1) wc
    else
      match w wc with
      | WOut.eagain => (false, wc + 1)
      | WOut.err => (true, wc + 1)
      | WOut.ok => flushLoop ringAt start w k (i + 1) (wc + 1)

/-- Per-client body of flush_ring_to_clients (lines 152-185).  `ringAt` gives
the observable bytes of each ring slot, (head, total) the ring snapshot, and
`cursor` the client's ring_cursor.  The server maintains cursor ≤ total (the
cursor only ever takes earlier values of count), so the C unsigned
subtraction `total - cursor` is Nat subtraction. -/
def flushClient (ringAt : Nat → List Nat) (head total cursor : Nat)
    (w : Nat → WOut) : FlushOut :=
  let pending0 := total - cursor
  if pending0 = 0 then { cursor := cursor, removed := false, writes := 0 }
  else
    let cursor1 := if RB_SIZE < pending0 then total - RB_SIZE else cursor
    let pending := if RB_SIZE < pending0 then RB_SIZE else pending0
    let start := (head + RB_SIZE - pending) % RB_SIZE
    let out := flushLoop ringAt start w pending 0 0
    if out.1 then { cursor := cursor1, removed := true, writes := out.2 }
    else { cursor := total, removed := false, writes := out.2 }

/-! ## gpio.json loaders: load_gpio_config (src/src/treadmill_io.cpp, lines
28-64, the loader main() uses) and parse_gpio_config (src/src/config.h, the
loader the tests exercise).

The RapidJSON lookups collapse to an abstract per-pin entry: the member can
be absent, not an object, an object without a "gpio" member, an object whose
"gpio" is not an integer, or an object with an integer "gpio". -/

/-- Shape of one pin entry of the parsed JSON document. -/
inductive JEntry where
  | absent
  | notObject
  | noGpio
  | gpioNonInt
  | gpioInt (v : Int)
deriving Repr, DecidableEq

/-- The three pin entries of a parsed gpio.json document. -/
structure GpioDoc where
  console_read : JEntry
  motor_write : JEntry
  motor_read : JEntry
deriving Repr, DecidableEq

/-- GpioConfig (src/src/config.h). -/
structure GpioConfig where
  console_read : Int
  motor_write : Int
  motor_read : Int
deriving Repr, DecidableEq

/-- The get_gpio lambda in load_gpio_config (src/src/treadmill_io.cpp, lines
46-52): −1 for every failure shape, else the integer. -/
def get_gpio : JEntry → Int
  | JEntry.gpioInt v => v
  | _ => -1

/-- load_gpio_config (src/src/treadmill_io.cpp, lines 28-64) on an already
parsed document: fails iff one of the three pins comes back negative.  main()
(lines 66-76) exits with status 1 when this fails. -/
def load_gpio_config (d : GpioDoc) : Option GpioConfig :=
  let cfg : GpioConfig :=
    { console_read := get_gpio d.console_read,
      motor_write := get_gpio d.motor_write,
      motor_read := get_gpio d.motor_read }
  if cfg.console_read < 0 ∨ cfg.motor_write < 0 ∨ cfg.motor_read < 0 then none
  else some cfg

/-- Per-pin validation of parse_gpio_config (src/src/config.h): reject
missing/non-object sections, missing/non-integer gpio members, and values
outside [0, 53]. -/
def pinOk : JEntry → Option Int
  | JEntry.gpioInt v => if v < 0 ∨ 53 < v then none else some v
  | _ => none

/-- parse_gpio_config (src/src/config.h) on an already parsed document. -/
def parse_gpio_config (d : GpioDoc) : Option GpioConfig :=
  match pinOk d.console_read, pinOk d.motor_write, pinOk d.motor_read with
  | some a, some b, some c =>
    some { console_read := a, motor_write := b, motor_read := c }
  | _, _, _ => none

/-! ## Derived observations used by the theorems -/

/-- The guard of auto_proxy_on_console_change, read off its early returns:
the call mutates state only when the old value is non-empty, differs from the
new one, the key is hmph or inc, and the machine is emulating. -/
def autoProxyTrigger (key old_val new_val : String) (m : Mode) : Bool :=
  !(old_val == "") && !(old_val == new_val) &&
    (key == "hmph" || key == "inc") && (m == Mode.Emulating)

/-- Whether the first snap value published with emulate_enabled set has all
three set-points at zero (false when no such snap is published). -/
def firstEmuZero (l : List Snap) : Bool :=
  match l.find? (fun s => s.emulate_enabled) with
  | some s => s.speed_tenths == 0 && s.speed_raw == 0 && s.incline == 0
  | none => false

/-! ## Theorems -/

/-- C1: calling watchdog_reset_to_proxy on the mode authority, from any
state, zeroes speed_tenths, speed_raw and incline, sets the mode (and the
published snap) to Proxy, and never invokes the registered emulate
callback. -/
theorem watchdog_reset_spec (st : ModeSM) :
    (watchdog_reset_to_proxy st).st.mode = Mode.Proxy ∧
    (watchdog_reset_to_proxy st).st.speed_tenths = 0 ∧
    (watchdog_reset_to_proxy st).st.speed_raw = 0 ∧
    (watchdog_reset_to_proxy st).st.incline = 0 ∧
    (watchdog_reset_to_proxy st).st.snap =
      { proxy_enabled := true, emulate_enabled := false,
        speed_tenths := 0, speed_raw := 0, incline := 0 } ∧
    (watchdog_reset_to_proxy st).cbs = [] :=
  ⟨rfl, rfl, rfl, rfl, rfl, rfl⟩

/-- C2 counterexample: with two pending one-byte messages and a socket that
reports EAGAIN on the first write, flush_ring_to_clients keeps the client
(removed = false) yet advances its ring_cursor from 0 to the snapshot count
2 — the cursor is NOT left unchanged, so the unsent messages are skipped
rather than retried. -/
theorem flush_eagain_counterexample :
    (flushClient (fun _ => [65]) 2 2 0 (fun _ => WOut.eagain)).removed = false ∧
    (flushClient (fun _ => [65]) 2 2 0 (fun _ => WOut.eagain)).writes = 1 ∧
    (flushClient (fun _ => [65]) 2 2 0 (fun _ => WOut.eagain)).cursor ≠ 0 := by
  decide

/-- C5: load_gpio_config in src/src/treadmill_io.cpp (the loader main()
calls) accepts gpio = 54, which is outside [0, 53], while parse_gpio_config
in src/src/config.h — whose tests reject values above 53 as "out of range
[0-53]" — refuses the same document.  The daemon therefore does not exit
non-zero on an out-of-range (too high) pin. -/
theorem load_gpio_config_accepts_54 :
    load_gpio_config
        { console_read := JEntry.gpioInt 54, motor_write := JEntry.gpioInt 22,
          motor_read := JEntry.gpioInt 17 }
      = some { console_read := 54, motor_write := 22, motor_read := 17 } ∧
    parse_gpio_config
        { console_read := JEntry.gpioInt 54, motor_write := JEntry.gpioInt 22,
          motor_read := JEntry.gpioInt 17 } = none := by
  decide

/-- C6 counterexample: for the one-byte printable key ":" (0x3A) and the
empty value, kv_build produces "[:]" 0xFF, which kv_parse reads back as the
pair ("", "") — not (":", "") — so the build-parse round-trip fails as
universally stated. -/
theorem kv_roundtrip_counterexample :
    kv_parse (kv_build [58] []) 16
        ≠ ([([58], [])], (kv_build [58] []).length) ∧
    kv_parse (kv_build [58] []) 16 = ([([], [])], 4) := by
  decide

/-- C7: for every speed 0 ≤ t ≤ 120 tenths of mph, decoding the hex encoding
returns t. -/
theorem speed_hex_roundtrip :
    ∀ t : Nat, t ≤ 120 → decode_speed_hex (encode_speed_hex t) = (t : Int) := by
  decide

/-- Witness for C7 at the maximum speed. -/
theorem speed_hex_roundtrip_witness :
    120 ≤ 120 ∧ decode_speed_hex (encode_speed_hex 120) = (120 : Int) :=
  ⟨by decide, speed_hex_roundtrip 120 (by decide)⟩

/-- C10: kv_parse accepts a frame whose content starts with a colon, emitting
a pair with an empty key — "[:x]" parses to ("", "x") — and symmetrically
"[k:]" parses to ("k", ""), each consuming all four bytes. -/
theorem kv_parse_empty_key_and_value :
    kv_parse [91, 58, 120, 93] 16 = ([([], [120])], 4) ∧
    kv_parse [91, 107, 58, 93] 16 = ([([107], [])], 4) := by
  decide

/-- C9: pushing a message of MsgSize (256) bytes or more stores exactly its
first 255 bytes in the head slot followed by a NUL, while count still
increments by one and head advances by one mod Size. -/
theorem ring_push_truncates (rb : RingBuf) (msg : List Nat)
    (h : RB_MSG_SIZE ≤ msg.length) :
    (((List.range 255).all
        fun j => (rb.push msg).msgs rb.head j == msg.getD j 0) = true) ∧
    (rb.push msg).msgs rb.head 255 = 0 ∧
    (rb.push msg).count = rb.count + 1 ∧
    (rb.push msg).head = (rb.head + 1) % RB_SIZE := by
  have hcl : min msg.length (RB_MSG_SIZE - 1) = 255 := by
    unfold RB_MSG_SIZE at h ⊢
    omega
  refine ⟨?_, ?_, rfl, rfl⟩
  · rw [List.all_eq_true]
    intro j hj
    rw [List.mem_range] at hj
    simp [RingBuf.push, hcl, hj]
  · simp [RingBuf.push, hcl]

/-- Witness for C9: a 300-byte message of letter A bytes into a fresh ring. -/
theorem ring_push_truncates_witness :
    RB_MSG_SIZE ≤ (List.replicate 300 65).length ∧
    ((((List.range 255).all
        fun j =>
          ((RingBuf.mk (fun _ _ => 0) 0 0).push (List.replicate 300 65)).msgs 0 j
            == (List.replicate 300 65).getD j 0) = true) ∧
      ((RingBuf.mk (fun _ _ => 0) 0 0).push (List.replicate 300 65)).msgs 0 255 = 0 ∧
      ((RingBuf.mk (fun _ _ => 0) 0 0).push (List.replicate 300 65)).count = 0 + 1 ∧
      ((RingBuf.mk (fun _ _ => 0) 0 0).push (List.replicate 300 65)).head
        = (0 + 1) % RB_SIZE) :=
  ⟨by rw [List.length_replicate]; decide,
   ring_push_truncates (RingBuf.mk (fun _ _ => 0) 0 0) (List.replicate 300 65)
     (by rw [List.length_replicate]; decide)⟩

/-- C3: every transition into Emulating — request_emulate(true), set_speed,
or set_incline from a non-Emulating mode — publishes, as the first snap value
carrying emulate_enabled, one with speed_tenths, speed_raw and incline all
zero: the zeros are visible at the moment the snapshot first shows
Emulating. -/
theorem enter_emulating_zeroed (st : ModeSM) (t v : Int)
    (h : st.mode ≠ Mode.Emulating) :
    firstEmuZero (request_emulate true st).snaps = true ∧
    firstEmuZero (set_speed t st).snaps = true ∧
    firstEmuZero (set_incline v st).snaps = true := by
  have hb : (st.mode == Mode.Emulating) = false := by
    simp [h]
  refine ⟨?_, ?_, ?_⟩ <;>
    simp [request_emulate, set_speed, set_incline, enter_emulate, update_snap,
          firstEmuZero, hb, List.find?]

/-- Witness for C3: from the initial (Proxy) state, with set_speed 50 and
set_incline 14. -/
theorem enter_emulating_zeroed_witness :
    msmInit.mode ≠ Mode.Emulating ∧
    (firstEmuZero (request_emulate true msmInit).snaps = true ∧
     firstEmuZero (set_speed 50 msmInit).snaps = true ∧
     firstEmuZero (set_incline 14 msmInit).snaps = true) :=
  ⟨by decide, enter_emulating_zeroed msmInit 50 14 (by decide)⟩

/-- C4: auto_proxy_on_console_change changes state exactly under its guard
(key hmph or inc, non-empty old value, old differs from new, mode Emulating):
then the mode becomes Proxy, emulate_stopped and changed are reported, and
the set-points are untouched; under every other input it returns the state
unchanged with a zero result, no callback and no snap write. -/
theorem auto_proxy_cases (st : ModeSM) (key old_val new_val : String) :
    (autoProxyTrigger key old_val new_val st.mode = true →
      (auto_proxy_on_console_change key old_val new_val st).st.mode = Mode.Proxy ∧
      (auto_proxy_on_console_change key old_val new_val st).res.emulate_stopped = true ∧
      (auto_proxy_on_console_change key old_val new_val st).res.changed = true ∧
      (auto_proxy_on_console_change key old_val new_val st).st.speed_tenths
        = st.speed_tenths ∧
      (auto_proxy_on_console_change key old_val new_val st).st.speed_raw
        = st.speed_raw ∧
      (auto_proxy_on_console_change key old_val new_val st).st.incline
        = st.incline) ∧
    (autoProxyTrigger key old_val new_val st.mode = false →
      auto_proxy_on_console_change key old_val new_val st = noopOut st) := by
  unfold autoProxyTrigger auto_proxy_on_console_change
  cases h1 : (old_val == "") <;> cases h2 : (old_val == new_val) <;>
    cases h3 : (key == "hmph") <;> cases h4 : (key == "inc") <;>
      cases h5 : (st.mode == Mode.Emulating) <;>
        simp [h1, h2, h3, h4, h5, exit_emulate, update_snap]

/-- Witness for C4: a genuine hmph change while emulating flips to Proxy; a
belt change while emulating is a no-op. -/
theorem auto_proxy_cases_witness :
    (auto_proxy_on_console_change "hmph" "5" "6"
        (request_emulate true msmInit).st).st.mode = Mode.Proxy ∧
    auto_proxy_on_console_change "belt" "0" "1" (request_emulate true msmInit).st
      = noopOut (request_emulate true msmInit).st :=
  ⟨((auto_proxy_cases (request_emulate true msmInit).st "hmph" "5" "6").1
      (by decide)).1,
   (auto_proxy_cases (request_emulate true msmInit).st "belt" "0" "1").2
      (by decide)⟩

/-- Helper: one mode-authority operation preserves speed_raw =
speed_tenths * 10 for the state, for its snap, and for every snap value it
publishes. -/
theorem applyOp_speed_raw (op : MOp) (st : ModeSM)
    (h1 : st.speed_raw = st.speed_tenths * 10)
    (h2 : st.snap.speed_raw = st.snap.speed_tenths * 10) :
    ((applyOp op st).st.speed_raw = (applyOp op st).st.speed_tenths * 10 ∧
     (applyOp op st).st.snap.speed_raw
       = (applyOp op st).st.snap.speed_tenths * 10) ∧
    (((applyOp op st).snaps.all fun s => s.speed_raw == s.speed_tenths * 10)
      = true) := by
  cases op <;>
    simp [applyOp, request_proxy, request_emulate, set_speed, set_incline,
          auto_proxy_on_console_change, safety_timeout_reset, watchdog_reset_to_proxy,
          enter_emulate, exit_emulate, update_snap, noopOut, trNone,
          h1, h2, List.all_eq_true, beq_iff_eq] <;>
    split_ifs <;> simp_all

/-- Helper: the invariant of applyOp_speed_raw holds along any run. -/
theorem runOps_speed_raw (ops : List MOp) : ∀ st : ModeSM,
    st.speed_raw = st.speed_tenths * 10 →
    st.snap.speed_raw = st.snap.speed_tenths * 10 →
    ((runOps st ops).1.speed_raw = (runOps st ops).1.speed_tenths * 10 ∧
     (runOps st ops).1.snap.speed_raw
       = (runOps st ops).1.snap.speed_tenths * 10 ∧
     (((runOps st ops).2.all fun s => s.speed_raw == s.speed_tenths * 10)
       = true)) := by
  induction ops with
  | nil =>
    intro st h1 h2
    exact ⟨h1, h2, rfl⟩
  | cons op rest ih =>
    intro st h1 h2
    have ha := applyOp_speed_raw op st h1 h2
    have hr := ih (applyOp op st).st ha.1.1 ha.1.2
    refine ⟨?_, ?_, ?_⟩
    · simpa [runOps] using hr.1
    · simpa [runOps] using hr.2.1
    · simp [runOps, List.all_append, ha.2, hr.2.2]

/-- C8: after any sequence of mode-authority operations from the initial
state, the snapshot read reports speed_raw = speed_tenths * 10, and every
intermediate value the atomic snap ever held satisfies it too. -/
theorem snapshot_speed_raw_times_ten (ops : List MOp) :
    (snapshot (runOps msmInit ops).1).speed_raw
      = (snapshot (runOps msmInit ops).1).speed_tenths * 10 ∧
    (((runOps msmInit ops).2.all fun s => s.speed_raw == s.speed_tenths * 10)
      = true) := by
  have h := runOps_speed_raw ops msmInit rfl rfl
  exact ⟨h.2.1, h.2.2⟩

/-- Helper: if the write oracle succeeds on its first m calls and reports
EAGAIN on call m, the flush message loop never marks the client failed and
makes at most m + 1 write calls. -/
theorem flushLoop_eagain_stops (ringAt : Nat → List Nat) (start : Nat)
    (w : Nat → WOut) (m : Nat)
    (hok : ∀ j, j < m → w j = WOut.ok) (hm : w m = WOut.eagain) :
    ∀ k i wc, wc ≤ m →
      (flushLoop ringAt start w k i wc).1 = false ∧
      (flushLoop ringAt start w k i wc).2 ≤ m + 1 := by
  intro k
  induction k with
  | zero =>
    intro i wc hwc
    refine ⟨rfl, ?_⟩
    show wc ≤ m + 1
    omega
  | succ k ih =>
    intro i wc hwc
    simp only [flushLoop]
    split
    · exact ih (i + 1) wc hwc
    · rcases Nat.eq_or_lt_of_le hwc with he | hlt
      · rw [he, hm]
        exact ⟨rfl, Nat.le_refl (m + 1)⟩
      · rw [hok wc hlt]
        exact ih (i + 1) (wc + 1) hlt

/-- C2 as amended: when a write returns EAGAIN (after m successful writes),
the flush of that client stops for the cycle — at most m + 1 write calls are
made and the client is NOT removed — but its ring_cursor is advanced to the
snapshot count, so the unsent messages are skipped rather than retried; only
a genuine write error removes a client. -/
theorem flush_on_eagain_keeps_client (ringAt : Nat → List Nat)
    (head total cursor : Nat) (w : Nat → WOut) (m : Nat)
    (hct : cursor ≤ total)
    (hok : ∀ j, j < m → w j = WOut.ok) (hm : w m = WOut.eagain) :
    (flushClient ringAt head total cursor w).removed = false ∧
    (flushClient ringAt head total cursor w).cursor = total ∧
    (flushClient ringAt head total cursor w).writes ≤ m + 1 := by
  unfold flushClient
  by_cases h0 : total - cursor = 0
  · have hc : cursor = total := by omega
    simp [h0, hc]
  · have hl := flushLoop_eagain_stops ringAt
      ((head + RB_SIZE - (if RB_SIZE < total - cursor then RB_SIZE
                          else total - cursor)) % RB_SIZE)
      w m hok hm
      (if RB_SIZE < total - cursor then RB_SIZE else total - cursor) 0 0
      (Nat.zero_le m)
    simp only [h0, if_false, hl.1]
    simp [hl.1, hl.2]

/-- Witness for C2's amended theorem: two pending messages, EAGAIN on the
very first write (m = 0): the client is kept, exactly one write call is
made, and the cursor jumps to the count 2. -/
theorem flush_on_eagain_keeps_client_witness :
    (0 : Nat) ≤ 2 ∧
    ((flushClient (fun _ => [65]) 2 2 0 (fun _ => WOut.eagain)).removed = false ∧
     (flushClient (fun _ => [65]) 2 2 0 (fun _ => WOut.eagain)).cursor = 2 ∧
     (flushClient (fun _ => [65]) 2 2 0 (fun _ => WOut.eagain)).writes ≤ 0 + 1) :=
  ⟨by decide,
   flush_on_eagain_keeps_client (fun _ => [65]) 2 2 0 (fun _ => WOut.eagain) 0
     (by decide) (fun j hj => absurd hj (Nat.not_lt_zero j)) rfl⟩

/-- Helper: findByte misses on a list not containing the byte. -/
theorem findByte_eq_none (b : Nat) (l : List Nat) (h : b ∉ l) :
    findByte b l = none := by
  induction l with
  | nil => rfl
  | cons c cs ih =>
    simp only [List.mem_cons, not_or] at h
    have hcb : ¬c = b := fun hc => h.1 hc.symm
    simp [findByte, hcb, ih h.2]

/-- Helper: findByte finds the first occurrence right after a prefix free of
the byte. -/
theorem findByte_append_self (b : Nat) (l1 l2 : List Nat) (h : b ∉ l1) :
    findByte b (l1 ++ b :: l2) = some l1.length := by
  induction l1 with
  | nil => simp [findByte]
  | cons c cs ih =>
    simp only [List.mem_cons, not_or] at h
    have hcb : ¬c = b := fun hc => h.1 hc.symm
    simp [findByte, hcb, ih h.2]


/-- Helper for C6, empty-value case: kv_parse inverts kv_build for a bare
key. -/
theorem kv_parse_build_nil (key : List Nat) (mp : Nat)
    (hk : key ≠ []) (hkp : key.all isPrintable = true)
    (hkc : 58 ∉ key) (hkb : 93 ∉ key)
    (hlen : key.length ≤ 63) (hmp : 2 ≤ mp) :
    kv_parse (kv_build key []) mp = ([(key, [])], (kv_build key []).length) := by
  have hkl : 0 < key.length := List.length_pos.mpr hk
  have hk64 : key.length < KV_FIELD_SIZE := by
    unfold KV_FIELD_SIZE
    omega
  have hbuf : kv_build key [] = 91 :: (key ++ [93, 255]) := by simp [kv_build]
  have hlenbuf : (kv_build key []).length = key.length + 3 := by simp [kv_build]
  rw [kv_parse, hlenbuf, hbuf]
  rw [show key.length + 3 + 1 = (key.length + 3) + 1 from rfl, kvParseGo]
  rw [if_pos (⟨by simp, by simp; omega⟩ :
        0 < (91 :: (key ++ [93, 255])).length ∧
          ([] : List KvPairL).length < mp)]
  simp only [List.getD_cons_zero, List.drop_succ_cons, List.drop_zero,
             findByte_append_self 93 key [255] hkb]
  rw [if_neg (by decide : ¬((91 : Nat) = 255 ∨ (91 : Nat) = 0)), if_pos trivial]
  rw [show 0 + 1 + key.length - 0 - 1 = key.length from by omega,
      show 0 + 1 + key.length + 1 = key.length + 2 from by omega]
  simp only [List.take_left, findByte_eq_none 58 key hkc]
  rw [if_pos (⟨hkp, hkl, hk64⟩ :
        key.all isPrintable = true ∧ 0 < key.length ∧
          key.length < KV_FIELD_SIZE)]
  simp only [if_pos hk64, List.nil_append]
  have hg : (91 :: (key ++ [93, 255])).getD (key.length + 2) 0 = 255 := by
    rw [show key.length + 2 = (key.length + 1) + 1 from rfl, List.getD_cons_succ,
        List.getD_append_right _ _ _ _ (by omega : key.length ≤ key.length + 1)]
    simp [Nat.add_sub_cancel_left]
  rw [show key.length + 3 = (key.length + 2) + 1 from rfl, kvParseGo]
  rw [if_pos (⟨by simp [List.length_append], by simp; omega⟩ :
        key.length + 2 < (91 :: (key ++ [93, 255])).length ∧
          ([(key, ([] : List Nat))] : List KvPairL).length < mp)]
  simp only [hg]
  rw [if_pos (Or.inl trivial : True ∨ (255 : Nat) = 0)]
  rw [show key.length + 2 = (key.length + 1) + 1 from rfl, kvParseGo]
  rw [if_neg (by simp [List.length_append] :
        ¬((key.length + 1 + 1 + 1 < (91 :: (key ++ [93, 255])).length ∧
          ([(key, ([] : List Nat))] : List KvPairL).length < mp)))]

/-- Helper for C6, non-empty-value case: kv_parse inverts kv_build for a
key:value frame. -/
theorem kv_parse_build_cons (key value : List Nat) (mp : Nat)
    (hk : key ≠ []) (hv : value ≠ [])
    (hkp : key.all isPrintable = true) (hvp : value.all isPrintable = true)
    (hkc : 58 ∉ key) (hkb : 93 ∉ key) (hvb : 93 ∉ value)
    (hlen : key.length + 1 + value.length ≤ 63) (hmp : 2 ≤ mp) :
    kv_parse (kv_build key value) mp
      = ([(key, value)], (kv_build key value).length) := by
  have hkl : 0 < key.length := List.length_pos.mpr hk
  have hbuf : kv_build key value = 91 :: ((key ++ 58 :: value) ++ [93, 255]) := by
    simp [kv_build, hv]
  have hinrlen : (key ++ 58 :: value).length = key.length + 1 + value.length := by
    simp
    omega
  have h93 : 93 ∉ key ++ 58 :: value := by
    simp [List.mem_append, List.mem_cons, hkb, hvb]
  have hpr : (key ++ 58 :: value).all isPrintable = true := by
    simp [List.all_append, List.all_cons] at hkp hvp ⊢
    exact ⟨hkp, by decide, hvp⟩
  have hfind58 : findByte 58 (key ++ 58 :: value) = some key.length :=
    findByte_append_self 58 key value hkc
  have htake : (key ++ 58 :: value).take key.length = key := List.take_left key (58 :: value)
  have hdrop : (key ++ 58 :: value).drop (key.length + 1) = value := by
    rw [List.append_cons]
    rw [show key.length + 1 = (key ++ [58]).length from by simp]
    exact List.drop_left _ _
  have hL : 0 < (key ++ 58 :: value).length := by simp
  have h64 : (key ++ 58 :: value).length < KV_FIELD_SIZE := by
    unfold KV_FIELD_SIZE
    omega
  have hk64 : key.length < KV_FIELD_SIZE := by
    unfold KV_FIELD_SIZE
    omega
  have hv64 : value.length < KV_FIELD_SIZE := by
    unfold KV_FIELD_SIZE
    omega
  have hlenbuf : (kv_build key value).length = (key ++ 58 :: value).length + 3 := by
    rw [hbuf]
    simp
    omega
  rw [kv_parse, hlenbuf, hbuf]
  rw [show (key ++ 58 :: value).length + 3 + 1 = ((key ++ 58 :: value).length + 3) + 1 from rfl,
      kvParseGo]
  rw [if_pos (⟨by simp, by simp; omega⟩ :
        0 < (91 :: ((key ++ 58 :: value) ++ [93, 255])).length ∧
          ([] : List KvPairL).length < mp)]
  simp only [List.getD_cons_zero, List.drop_succ_cons, List.drop_zero,
             findByte_append_self 93 (key ++ 58 :: value) [255] h93]
  rw [if_neg (by decide : ¬((91 : Nat) = 255 ∨ (91 : Nat) = 0)), if_pos trivial]
  rw [show 0 + 1 + (key ++ 58 :: value).length - 0 - 1 = (key ++ 58 :: value).length from by omega,
      show 0 + 1 + (key ++ 58 :: value).length + 1 = (key ++ 58 :: value).length + 2 from by omega]
  simp only [List.take_left, hfind58]
  rw [if_pos (⟨hpr, hL, h64⟩ :
        (key ++ 58 :: value).all isPrintable = true ∧ 0 < (key ++ 58 :: value).length ∧
          (key ++ 58 :: value).length < KV_FIELD_SIZE)]
  simp only [htake, hdrop]
  rw [if_pos (⟨hk64, hv64⟩ :
        key.length < KV_FIELD_SIZE ∧ value.length < KV_FIELD_SIZE)]
  simp only [List.nil_append]
  have hg : (91 :: ((key ++ 58 :: value) ++ [93, 255])).getD ((key ++ 58 :: value).length + 2) 0 = 255 := by
    rw [show (key ++ 58 :: value).length + 2 = ((key ++ 58 :: value).length + 1) + 1 from rfl,
        List.getD_cons_succ,
        List.getD_append_right _ _ _ _
          (by omega : (key ++ 58 :: value).length ≤ (key ++ 58 :: value).length + 1)]
    simp [Nat.add_sub_cancel_left]
  rw [show (key ++ 58 :: value).length + 3 = ((key ++ 58 :: value).length + 2) + 1 from rfl,
      kvParseGo]
  rw [if_pos (⟨by simp [List.length_append]; omega, by simp; omega⟩ :
        (key ++ 58 :: value).length + 2 < (91 :: ((key ++ 58 :: value) ++ [93, 255])).length ∧
          ([(key, value)] : List KvPairL).length < mp)]
  simp only [hg]
  rw [if_pos (Or.inl trivial : True ∨ (255 : Nat) = 0)]
  rw [show (key ++ 58 :: value).length + 2 = ((key ++ 58 :: value).length + 1) + 1 from rfl,
      kvParseGo]
  rw [if_neg (by simp [List.length_append]; omega :
        ¬(((key ++ 58 :: value).length + 1 + 1 + 1 < (91 :: ((key ++ 58 :: value) ++ [93, 255])).length ∧
          ([(key, value)] : List KvPairL).length < mp)))]

/-- C6 as amended: for every key of 1-63 printable ASCII bytes containing
neither the colon 0x3A nor the bracket 0x5D, and every value of printable
ASCII bytes not containing 0x5D, whose total bracket content (key, plus
colon and value when the value is non-empty) is at most 63 bytes, parsing
the bytes produced by kv_build with room for at least two pairs yields
exactly the pair (key, value) with the trailing 0xFF terminator consumed. -/
theorem kv_build_parse_roundtrip (key value : List Nat) (maxPairs : Nat)
    (hk : key ≠ [])
    (hkp : key.all isPrintable = true) (hvp : value.all isPrintable = true)
    (hkc : 58 ∉ key) (hkb : 93 ∉ key) (hvb : 93 ∉ value)
    (hlen : key.length + (if value = [] then 0 else 1 + value.length) ≤ 63)
    (hmp : 2 ≤ maxPairs) :
    kv_parse (kv_build key value) maxPairs
      = ([(key, value)], (kv_build key value).length) := by
  cases value with
  | nil =>
    exact kv_parse_build_nil key maxPairs hk hkp hkc hkb (by simpa using hlen) hmp
  | cons v vs =>
    refine kv_parse_build_cons key (v :: vs) maxPairs hk (by simp) hkp hvp hkc hkb hvb
      ?_ hmp
    simp at hlen ⊢
    omega

/-- Witness for C6's amended theorem: key "hmph", value "78", sixteen pair
slots. -/
theorem kv_build_parse_roundtrip_witness :
    ([104, 109, 112, 104] : List Nat) ≠ [] ∧
    kv_parse (kv_build [104, 109, 112, 104] [55, 56]) 16
      = ([([104, 109, 112, 104], [55, 56])],
         (kv_build [104, 109, 112, 104] [55, 56]).length) :=
  ⟨by decide,
   kv_build_parse_roundtrip [104, 109, 112, 104] [55, 56] 16 (by decide) (by decide)
     (by decide) (by decide) (by decide) (by decide) (by decide) (by decide)⟩

end Precor
